import Mathlib

/-!
Verification of the Monte Carlo risk-simulation core and the dashboard
data-loading logic of the Big_data repository.

The repository ships only the dashboard (`dashboard.py`,
`dashboard/Phase 7/BD_dashboard.py`) and infrastructure scripts; the
simulator that produced `simulation_results.csv` is not under `src/`.
The simulator's data model, scenario generator, scorer and aggregator are
therefore modelled from the spec (each such definition says so in its doc
comment); the congestion weight table additionally matches the table
rendered by `dashboard.py` lines 365-373.  `load_data` and the page
guards are embedded directly from `dashboard.py`.

Numeric fields are modelled as exact rationals (ℚ): the spec states the
scoring arithmetic (baseline + triggered weights, clamp to [0,1]) in
exact terms.
-/

/-- An input row of the merged weather+traffic dataset.  Field names
follow the spec's data model and the dashboard's column names
(`temperature_c`, `humidity`, `rain_mm`, `wind_speed_kmh`,
`visibility_m`, `vehicle_count`).  A perturbed trial carries the same
fields, so the same record type serves for both. -/
structure Observation where
  temperature_c : ℚ
  humidity : ℚ
  rain_mm : ℚ
  wind_speed_kmh : ℚ
  visibility_m : ℚ
  vehicle_count : ℚ
deriving Repr, DecidableEq

/-- Modelled from the spec: per-field zero-mean noise offsets drawn for
one trial ("each field of a Scenario is drawn by adding zero-mean random
noise to the corresponding baseline field").  The random source is
abstracted as the offsets it produces. -/
structure Noise where
  temperature_c : ℚ
  humidity : ℚ
  rain_mm : ℚ
  wind_speed_kmh : ℚ
  visibility_m : ℚ
  vehicle_count : ℚ
deriving Repr, DecidableEq

/-- The noise offsets that leave the baseline unchanged (noise scale 0). -/
def zeroNoise : Noise :=
  { temperature_c := 0, humidity := 0, rain_mm := 0,
    wind_speed_kmh := 0, visibility_m := 0, vehicle_count := 0 }

/-- Modelled from the spec: scenario generation perturbs each baseline
field by the drawn noise and clamps fields that would leave their
physical range to their physical floor ("negative visibility, negative
vehicle count are clamped to their physical floor before scoring";
"visibility is floored at 0").  All non-negative physical quantities
(humidity, rain, wind speed, visibility, vehicle count) are floored at
0; temperature may be negative and is not floored. -/
def perturb (base : Observation) (n : Noise) : Observation :=
  { temperature_c := base.temperature_c + n.temperature_c
    humidity := max 0 (base.humidity + n.humidity)
    rain_mm := max 0 (base.rain_mm + n.rain_mm)
    wind_speed_kmh := max 0 (base.wind_speed_kmh + n.wind_speed_kmh)
    visibility_m := max 0 (base.visibility_m + n.visibility_m)
    vehicle_count := max 0 (base.vehicle_count + n.vehicle_count) }

/-- One row of a weight table: a threshold predicate on the trial's
field values paired with its additive probability contribution. -/
abbrev WeightRule := (Observation → Bool) × ℚ

/-- The congestion weight table, from the spec's RiskWeights table and
the identical table rendered by `dashboard.py` lines 365-373:
rain above 20mm +0.25, temperature below 0 or above 35 +0.15, humidity
above 85 +0.10, visibility below 500m +0.30, wind above 50km/h +0.10,
vehicle count above 3000 +0.20. -/
def congestionWeights : List WeightRule :=
  [ (fun s => decide (20 < s.rain_mm), 25/100),
    (fun s => decide (s.temperature_c < 0) || decide (35 < s.temperature_c), 15/100),
    (fun s => decide (85 < s.humidity), 10/100),
    (fun s => decide (s.visibility_m < 500), 30/100),
    (fun s => decide (50 < s.wind_speed_kmh), 10/100),
    (fun s => decide (3000 < s.vehicle_count), 20/100) ]

/-- Modelled from the spec: the accident weight table is "analogous but
distinct, with its own thresholds (visibility < 300, rain > 30, plus a
traffic-volume amplification term)"; the spec does not state its
weights, so they are left as the symbolic values below and every
theorem about accident scoring quantifies over the table. -/
def accidentWeights (wVis wRain wVol : ℚ) : List WeightRule :=
  [ (fun s => decide (s.visibility_m < 300), wVis),
    (fun s => decide (30 < s.rain_mm), wRain),
    (fun s => decide (3000 < s.vehicle_count), wVol) ]

/-- Clamp a probability to [0, 1] (the spec's clamping policy for both
risk scores). -/
def clamp01 (x : ℚ) : ℚ := max 0 (min 1 x)

/-- Modelled from the spec: the pre-clamp running sum of the scorer —
start at the configured baseline probability, and for each
(predicate, weight) pair whose predicate holds for this trial's field
values add the weight. -/
def preScore (baseline : ℚ) (table : List WeightRule) (s : Observation) : ℚ :=
  table.foldl (fun acc rule => if rule.1 s then acc + rule.2 else acc) baseline

/-- Modelled from the spec: the risk score of one trial — the pre-clamp
running sum clamped to [0, 1]. -/
def score (baseline : ℚ) (table : List WeightRule) (s : Observation) : ℚ :=
  clamp01 (preScore baseline table s)

/-- One output row: (congestion_probability, accident_probability), the
two columns of `simulation_results.csv` read by both dashboards. -/
structure SimulationResult where
  congestion_probability : ℚ
  accident_probability : ℚ
deriving Repr, DecidableEq

/-- Modelled from the spec: the simulator's configuration — baseline
probability per risk type and a weight table per risk type
(overridable for sensitivity analysis). -/
structure SimConfig where
  congestionBaseline : ℚ
  accidentBaseline : ℚ
  congestionTable : List WeightRule
  accidentTable : List WeightRule

/-- Modelled from the spec: score one trial against both weight tables
independently ("congestion and accident scores are computed from the
same Scenario but are not derived from each other"). -/
def scoreTrial (cfg : SimConfig) (s : Observation) : SimulationResult :=
  { congestion_probability := score cfg.congestionBaseline cfg.congestionTable s
    accident_probability := score cfg.accidentBaseline cfg.accidentTable s }

/-- Modelled from the spec: run the simulation — generate `trials`
perturbed scenarios from the baseline observation (trial `i` using the
noise draw `noise i`), score each, and collect the results in
generation order.  The per-trial noise stream stands for the seeded
random source: a fixed seed fixes the stream. -/
def simulate (cfg : SimConfig) (base : Observation) (noise : Nat → Noise)
    (trials : Nat) : List SimulationResult :=
  (List.range trials).map (fun i => scoreTrial cfg (perturb base (noise i)))

/-- The total weight contributed by the rules of `table` whose
predicates hold for `s`. -/
def triggeredSum (table : List WeightRule) (s : Observation) : ℚ :=
  ((table.filter (fun rule => rule.1 s)).map Prod.snd).sum

theorem preScore_eq_baseline_add (baseline : ℚ) (table : List WeightRule)
    (s : Observation) : preScore baseline table s = baseline + triggeredSum table s := by
  induction table generalizing baseline with
  | nil => simp [preScore, triggeredSum]
  | cons rule rest ih =>
    by_cases h : rule.1 s = true
    · simp [preScore, triggeredSum, h, List.filter_cons] at ih ⊢
      rw [ih]
      ring
    · simp [preScore, triggeredSum, h, List.filter_cons] at ih ⊢
      rw [ih]

theorem clamp01_nonneg (x : ℚ) : 0 ≤ clamp01 x := le_max_left 0 _

theorem clamp01_le_one (x : ℚ) : clamp01 x ≤ 1 := by
  unfold clamp01
  exact max_le (by norm_num) (min_le_left 1 x)

/-- C3: the scorer is the pure function taking the configured baseline,
adding the weight of every (predicate, weight) pair whose predicate
holds for the trial's field values, and clamping the sum to [0, 1]; as
a function it depends on nothing but the scenario and the table, so the
same scenario and table always yield the same score. -/
theorem score_eq_clamped_triggered_sum (baseline : ℚ) (table : List WeightRule)
    (s : Observation) : score baseline table s = clamp01 (baseline + triggeredSum table s) := by
  rw [score, preScore_eq_baseline_add]

/-- The baseline Observation of the spec's end-to-end example. -/
def exampleBaseline : Observation :=
  { temperature_c := 15, humidity := 60, rain_mm := 25,
    wind_speed_kmh := 20, visibility_m := 400, vehicle_count := 2000 }

/-- A concrete configuration used to instantiate witnesses: congestion
baseline 0.1 and the fixed congestion table, with a concrete accident
table. -/
def exampleConfig : SimConfig :=
  { congestionBaseline := 1/10, accidentBaseline := 1/10,
    congestionTable := congestionWeights,
    accidentTable := accidentWeights (30/100) (25/100) (20/100) }

/-- C1: every result recorded by a simulation run with at least one
trial has both probabilities in [0, 1], and each probability is the
clamp to [0, 1] of the accumulated weight sum of some scenario (the
bound is enforced by clamping, not renormalization), for every weight
table. -/
theorem simulation_results_bounded (cfg : SimConfig) (base : Observation)
    (noise : Nat → Noise) (trials : Nat) (htrials : 1 ≤ trials) :
    ∀ r ∈ simulate cfg base noise trials,
      (0 ≤ r.congestion_probability ∧ r.congestion_probability ≤ 1) ∧
      (0 ≤ r.accident_probability ∧ r.accident_probability ≤ 1) ∧
      ∃ s, r.congestion_probability =
            clamp01 (preScore cfg.congestionBaseline cfg.congestionTable s) ∧
          r.accident_probability =
            clamp01 (preScore cfg.accidentBaseline cfg.accidentTable s) := by
  intro r hr
  simp only [simulate, List.mem_map, List.mem_range] at hr
  obtain ⟨i, _, rfl⟩ := hr
  simp only [scoreTrial, score]
  exact ⟨⟨clamp01_nonneg _, clamp01_le_one _⟩, ⟨clamp01_nonneg _, clamp01_le_one _⟩,
    perturb base (noise i), rfl, rfl⟩

theorem simulation_results_bounded_witness :
    1 ≤ (1 : Nat) ∧
    ∀ r ∈ simulate exampleConfig exampleBaseline (fun _ => zeroNoise) 1,
      (0 ≤ r.congestion_probability ∧ r.congestion_probability ≤ 1) ∧
      (0 ≤ r.accident_probability ∧ r.accident_probability ≤ 1) ∧
      ∃ s, r.congestion_probability =
            clamp01 (preScore exampleConfig.congestionBaseline exampleConfig.congestionTable s) ∧
          r.accident_probability =
            clamp01 (preScore exampleConfig.accidentBaseline exampleConfig.accidentTable s) :=
  ⟨le_refl 1,
   simulation_results_bounded exampleConfig exampleBaseline (fun _ => zeroNoise) 1 (le_refl 1)⟩

/-- C2: the simulation is a deterministic function of the baseline
observation, the configuration (weight tables), the trial count and the
per-trial random draws; a fixed seed fixes the draws, so two runs with
the same seed agree on every draw and produce identical result
sequences.  Without a seed the draws are unconstrained, so nothing ties
two runs together. -/
theorem simulate_deterministic_under_fixed_seed (cfg : SimConfig)
    (base : Observation) (noise1 noise2 : Nat → Noise) (trials : Nat)
    (hdraws : ∀ i, noise1 i = noise2 i) :
    simulate cfg base noise1 trials = simulate cfg base noise2 trials := by
  have hfun : noise1 = noise2 := funext hdraws
  rw [hfun]

theorem simulate_deterministic_under_fixed_seed_witness :
    simulate exampleConfig exampleBaseline (fun _ => zeroNoise) 5 =
      simulate exampleConfig exampleBaseline
        (fun _ => { temperature_c := 0, humidity := 0, rain_mm := 0,
                    wind_speed_kmh := 0, visibility_m := 0, vehicle_count := 0 }) 5 :=
  simulate_deterministic_under_fixed_seed exampleConfig exampleBaseline _ _ 5
    (fun _ => rfl)

/-- C4: every scenario that triggers exactly the rain (>20mm, +0.25)
and visibility (<500m, +0.30) congestion rules and no other scores
clamp(baseline + 0.25 + 0.30, 0, 1), for every baseline; and the
spec's end-to-end example — baseline {15°C, 60% humidity, 25mm rain,
20km/h wind, 400m visibility, 2000 vehicles}, congestion baseline
probability 0.1, one trial, zero noise — yields
congestion_probability = 0.65, for any accident table and baseline. -/
theorem end_to_end_example (b accBase : ℚ) (accTable : List WeightRule)
    (s : Observation)
    (hrain : 20 < s.rain_mm) (hvis : s.visibility_m < 500)
    (htemp : ¬ (s.temperature_c < 0 ∨ 35 < s.temperature_c))
    (hhum : ¬ 85 < s.humidity) (hwind : ¬ 50 < s.wind_speed_kmh)
    (hveh : ¬ 3000 < s.vehicle_count) :
    score b congestionWeights s = clamp01 (b + 25/100 + 30/100) ∧
    (simulate { congestionBaseline := 1/10, accidentBaseline := accBase,
                congestionTable := congestionWeights, accidentTable := accTable }
        exampleBaseline (fun _ => zeroNoise) 1).map
      SimulationResult.congestion_probability = [65/100] := by
  constructor
  · have h1 : ¬ s.temperature_c < 0 := fun hx => htemp (Or.inl hx)
    have h2 : ¬ 35 < s.temperature_c := fun hx => htemp (Or.inr hx)
    simp [score, preScore, congestionWeights, hrain, hvis, h1, h2, hhum,
      hwind, hveh]
  · simp [simulate, scoreTrial, score, preScore, congestionWeights, perturb,
      exampleBaseline, zeroNoise, clamp01, List.range_succ]
    norm_num

theorem end_to_end_example_witness :
    score (1/10) congestionWeights exampleBaseline
        = clamp01 (1/10 + 25/100 + 30/100) ∧
    (simulate { congestionBaseline := 1/10, accidentBaseline := 1/10,
                congestionTable := congestionWeights,
                accidentTable := accidentWeights (30/100) (25/100) (20/100) }
        exampleBaseline (fun _ => zeroNoise) 1).map
      SimulationResult.congestion_probability = [65/100] :=
  end_to_end_example (1/10) (1/10) (accidentWeights (30/100) (25/100) (20/100))
    exampleBaseline (by norm_num [exampleBaseline]) (by norm_num [exampleBaseline])
    (by norm_num [exampleBaseline]) (by norm_num [exampleBaseline])
    (by norm_num [exampleBaseline]) (by norm_num [exampleBaseline])

/-- Modelled from the spec: the aggregator's mean reducer reports an
explicit no-data condition (here: `none`) on an empty result set
instead of dividing by zero or producing a silent NaN. -/
def meanProb (xs : List ℚ) : Option ℚ :=
  if xs.isEmpty then none else some (xs.sum / xs.length)

/-- C5: requesting zero trials yields an empty result sequence (no
error: the function is total), and the mean reducer applied to either
probability column of the empty result set answers the explicit
no-data value rather than a division artifact. -/
theorem zero_trials_empty_and_mean_no_data (cfg : SimConfig)
    (base : Observation) (noise : Nat → Noise) :
    simulate cfg base noise 0 = [] ∧
    meanProb ((simulate cfg base noise 0).map SimulationResult.congestion_probability) = none ∧
    meanProb ((simulate cfg base noise 0).map SimulationResult.accident_probability) = none :=
  ⟨rfl, rfl, rfl⟩

/-- Modelled from the spec and from the boolean-sum idiom of
`dashboard.py` line 287 (`(probabilities > threshold).sum()`): the
aggregator's high-risk count reducer accumulates, over the result
sequence, an indicator of the probability exceeding the caller-supplied
threshold. -/
def highRiskCount (ps : List ℚ) (t : ℚ) : Nat :=
  ps.foldl (fun acc p => acc + if t < p then 1 else 0) 0

/-- From `dashboard.py` lines 287-288: the high-risk scenario
percentage divides the count of congestion probabilities above 0.5 by
the number of results and scales to percent. -/
def high_risk_pct (rs : List SimulationResult) : ℚ :=
  (highRiskCount (rs.map SimulationResult.congestion_probability) (1/2) : ℚ)
    / rs.length * 100

theorem highRiskCount_foldl_acc (t : ℚ) (ps : List ℚ) (acc : Nat) :
    ps.foldl (fun a p => a + if t < p then 1 else 0) acc
      = acc + (ps.filter (fun p => decide (t < p))).length := by
  induction ps generalizing acc with
  | nil => simp
  | cons p rest ih =>
    by_cases h : t < p
    · simp [List.foldl_cons, List.filter_cons, h, ih]
      omega
    · simp [List.foldl_cons, List.filter_cons, h, ih]

/-- C6: for every result sequence and every caller-supplied threshold,
the high-risk count reducer returns exactly the number of recorded
probabilities strictly exceeding that threshold, and the dashboard's
high-risk scenario percentage is that count at threshold 0.5 over the
congestion column, scaled to percent. -/
theorem highRiskCount_counts_exceeding (ps : List ℚ) (t : ℚ)
    (rs : List SimulationResult) :
    highRiskCount ps t = (ps.filter (fun p => decide (t < p))).length ∧
    high_risk_pct rs =
      (highRiskCount (rs.map SimulationResult.congestion_probability) (1/2) : ℚ)
        / rs.length * 100 := by
  constructor
  · simpa using highRiskCount_foldl_acc t ps 0
  · rfl

/-- C7: two scenarios with identical fields except rain — one at 25mm
(above the 20mm threshold), one at 10mm (below it) — have pre-clamp
congestion scores differing by exactly 0.25, whatever the baseline and
whatever the shared values of the other fields (every other rule reads
only the shared fields, so it contributes equally to both). -/
theorem rain_weight_exact_effect (b : ℚ) (s1 s2 : Observation)
    (ht : s1.temperature_c = s2.temperature_c)
    (hh : s1.humidity = s2.humidity)
    (hw : s1.wind_speed_kmh = s2.wind_speed_kmh)
    (hv : s1.visibility_m = s2.visibility_m)
    (hc : s1.vehicle_count = s2.vehicle_count)
    (h1 : s1.rain_mm = 25) (h2 : s2.rain_mm = 10) :
    preScore b congestionWeights s1 - preScore b congestionWeights s2 = 25/100 := by
  simp only [preScore, congestionWeights, List.foldl_cons, List.foldl_nil,
    ht, hh, hw, hv, hc, h1, h2]
  norm_num
  split_ifs <;> ring

/-- An observation at 25mm rain with no other congestion threshold
crossed, for instantiating the rain-effect theorem. -/
def obsRain25 : Observation :=
  { temperature_c := 15, humidity := 60, rain_mm := 25,
    wind_speed_kmh := 20, visibility_m := 600, vehicle_count := 2000 }

/-- The same observation with rain at 10mm. -/
def obsRain10 : Observation :=
  { temperature_c := 15, humidity := 60, rain_mm := 10,
    wind_speed_kmh := 20, visibility_m := 600, vehicle_count := 2000 }

theorem rain_weight_exact_effect_witness :
    preScore (1/10) congestionWeights obsRain25
      - preScore (1/10) congestionWeights obsRain10 = 25/100 :=
  rain_weight_exact_effect (1/10) obsRain25 obsRain10 rfl rfl rfl rfl rfl rfl rfl

/-- C8: scenario generation is total (an out-of-range draw is never an
error) and every generated scenario already respects the physical
floors when it reaches the scorer: perturbed humidity, rain, wind
speed, visibility and vehicle count are never negative, whatever noise
was drawn. -/
theorem perturb_respects_physical_floors (base : Observation) (n : Noise) :
    0 ≤ (perturb base n).visibility_m ∧ 0 ≤ (perturb base n).vehicle_count ∧
    0 ≤ (perturb base n).rain_mm ∧ 0 ≤ (perturb base n).humidity ∧
    0 ≤ (perturb base n).wind_speed_kmh :=
  ⟨le_max_left 0 _, le_max_left 0 _, le_max_left 0 _, le_max_left 0 _, le_max_left 0 _⟩

/-- Modelled from the spec: the baseline Observation as it arrives from
the input table, each required field possibly absent. -/
structure RawObservation where
  temperature_c : Option ℚ
  humidity : Option ℚ
  rain_mm : Option ℚ
  wind_speed_kmh : Option ℚ
  visibility_m : Option ℚ
  vehicle_count : Option ℚ
deriving Repr, DecidableEq

/-- Modelled from the spec: input validation checks every required
field of the baseline Observation and, when one is absent, reports
which field is missing (the first absent one, in field order). -/
def validate (raw : RawObservation) : Except String Observation :=
  match raw.temperature_c with
  | none => Except.error ("missing required field: " ++ "temperature_c")
  | some t =>
  match raw.humidity with
  | none => Except.error ("missing required field: " ++ "humidity")
  | some h =>
  match raw.rain_mm with
  | none => Except.error ("missing required field: " ++ "rain_mm")
  | some r =>
  match raw.wind_speed_kmh with
  | none => Except.error ("missing required field: " ++ "wind_speed_kmh")
  | some w =>
  match raw.visibility_m with
  | none => Except.error ("missing required field: " ++ "visibility_m")
  | some v =>
  match raw.vehicle_count with
  | none => Except.error ("missing required field: " ++ "vehicle_count")
  | some c =>
    Except.ok { temperature_c := t, humidity := h, rain_mm := r,
                wind_speed_kmh := w, visibility_m := v, vehicle_count := c }

/-- Modelled from the spec: the simulation entry point validates the
baseline Observation before any trial runs, so a validation error is
the whole run's result whatever the trial count and random draws. -/
def simulateChecked (cfg : SimConfig) (raw : RawObservation)
    (noise : Nat → Noise) (trials : Nat) : Except String (List SimulationResult) :=
  match validate raw with
  | Except.error e => Except.error e
  | Except.ok base => Except.ok (simulate cfg base noise trials)

/-- Look a raw field up by its column name (`none` for a name that is
not a required field), to state that an error message names a field
that really is missing. -/
def fieldNamed (raw : RawObservation) (name : String) : Option (Option ℚ) :=
  if name = "temperature_c" then some raw.temperature_c
  else if name = "humidity" then some raw.humidity
  else if name = "rain_mm" then some raw.rain_mm
  else if name = "wind_speed_kmh" then some raw.wind_speed_kmh
  else if name = "visibility_m" then some raw.visibility_m
  else if name = "vehicle_count" then some raw.vehicle_count
  else none

/-- C9: when any required field is missing from the baseline
Observation, the simulation fails fast — for every configuration,
noise stream and trial count it returns an error rather than a result
sequence — and the error message names a field that is indeed missing. -/
theorem missing_field_fails_fast (raw : RawObservation)
    (hmiss : raw.temperature_c = none ∨ raw.humidity = none ∨ raw.rain_mm = none ∨
             raw.wind_speed_kmh = none ∨ raw.visibility_m = none ∨
             raw.vehicle_count = none) :
    ∃ name, fieldNamed raw name = some none ∧
      ∀ cfg noise trials, simulateChecked cfg raw noise trials =
        Except.error ("missing required field: " ++ name) := by
  obtain ⟨t, h, r, w, v, c⟩ := raw
  cases t with
  | none => exact ⟨"temperature_c", rfl, fun cfg noise trials => rfl⟩
  | some tv =>
  cases h with
  | none => exact ⟨"humidity", rfl, fun cfg noise trials => rfl⟩
  | some hv =>
  cases r with
  | none => exact ⟨"rain_mm", rfl, fun cfg noise trials => rfl⟩
  | some rv =>
  cases w with
  | none => exact ⟨"wind_speed_kmh", rfl, fun cfg noise trials => rfl⟩
  | some wv =>
  cases v with
  | none => exact ⟨"visibility_m", rfl, fun cfg noise trials => rfl⟩
  | some vv =>
  cases c with
  | none => exact ⟨"vehicle_count", rfl, fun cfg noise trials => rfl⟩
  | some cv => simp at hmiss

/-- A raw baseline with the humidity column absent. -/
def rawMissingHumidity : RawObservation :=
  { temperature_c := some 15, humidity := none, rain_mm := some 25,
    wind_speed_kmh := some 20, visibility_m := some 400,
    vehicle_count := some 2000 }

theorem missing_field_fails_fast_witness :
    ∃ name, fieldNamed rawMissingHumidity name = some none ∧
      ∀ cfg noise trials, simulateChecked cfg rawMissingHumidity noise trials =
        Except.error ("missing required field: " ++ name) :=
  missing_field_fails_fast rawMissingHumidity (Or.inr (Or.inl rfl))

/-- Outcome of one underlying pandas read call (`pd.read_parquet` or
`pd.read_csv` in `dashboard.py` lines 75-78): a loaded value, a
FileNotFoundError, or any other exception with its message. -/
inductive ReadResult (A : Type) where
  | ok (v : A)
  | notFound
  | failed (msg : String)
deriving Repr, DecidableEq

/-- From `dashboard.py` lines 72-87: `load_data(file_path, file_type)`
dispatches on the declared file type, returns the loaded value on a
successful read, and returns None after displaying an error on an
unsupported file type, a FileNotFoundError, or any other exception.
The two pandas readers are passed in as the read environment. -/
def load_data {A : Type} (readP readC : String → ReadResult A)
    (file_path : String) (file_type : String) : Option A :=
  if file_type = "parquet" then
    match readP file_path with
    | ReadResult.ok v => some v
    | ReadResult.notFound => none
    | ReadResult.failed _ => none
  else if file_type = "csv" then
    match readC file_path with
    | ReadResult.ok v => some v
    | ReadResult.notFound => none
    | ReadResult.failed _ => none
  else
    none

/-- What a dashboard section renders: content, an error banner, or
nothing. -/
inductive PageView (A : Type) where
  | content (v : A)
  | errorText (msg : String)
  | blank
deriving Repr, DecidableEq

/-- From `dashboard.py` lines 128-151: the Overview dataset summary
renders its record count only under `if merged_df is not None:`; with
None it renders nothing (the branch has no else). -/
def overviewSummary {A : Type} (merged : Option (List A)) : PageView Nat :=
  match merged with
  | some df => PageView.content df.length
  | none => PageView.blank

/-- From `dashboard.py` lines 156-260: the Data Statistics page reads
the merged dataset only under `if merged_df is not None:` and renders
an error banner otherwise. -/
def dataStatisticsPage {A : Type} (merged : Option (List A)) : PageView Nat :=
  match merged with
  | some df => PageView.content df.length
  | none => PageView.errorText "Merged dataset not found"

/-- From `dashboard.py` lines 265-288: the Monte Carlo page reads the
simulation results only under `if simulation_results is not None:`,
rendering the result count, the two mean risks, and the high-risk
percentage; with None it renders an error banner instead. -/
def monteCarloPage (res : Option (List SimulationResult)) : PageView (Nat × ℚ × ℚ × ℚ) :=
  match res with
  | some rs => PageView.content
      (rs.length,
       (rs.map SimulationResult.congestion_probability).sum / rs.length,
       (rs.map SimulationResult.accident_probability).sum / rs.length,
       high_risk_pct rs)
  | none => PageView.errorText "Simulation results not found"

/-- C10: for every read environment, file path and declared file type,
`load_data` either returns the value produced by the matching reader or
returns None — there is no third outcome, so no exception ever reaches
the caller — and each dashboard page that uses a dataset, given None,
renders its no-data view without reading the dataset. -/
theorem load_data_never_raises {A : Type} (readP readC : String → ReadResult A)
    (file_path : String) (file_type : String) :
    ((∃ df, load_data readP readC file_path file_type = some df ∧
        ((file_type = "parquet" ∧ readP file_path = ReadResult.ok df) ∨
         (file_type = "csv" ∧ readC file_path = ReadResult.ok df))) ∨
      load_data readP readC file_path file_type = none) ∧
    overviewSummary (A := A) none = PageView.blank ∧
    dataStatisticsPage (A := A) none = PageView.errorText "Merged dataset not found" ∧
    monteCarloPage none = PageView.errorText "Simulation results not found" := by
  refine ⟨?_, rfl, rfl, rfl⟩
  by_cases hp : file_type = "parquet"
  · cases hr : readP file_path with
    | ok v => exact Or.inl ⟨v, by simp [load_data, hp, hr], Or.inl ⟨hp, rfl⟩⟩
    | notFound => exact Or.inr (by simp [load_data, hp, hr])
    | failed m => exact Or.inr (by simp [load_data, hp, hr])
  · by_cases hc : file_type = "csv"
    · cases hr : readC file_path with
      | ok v => exact Or.inl ⟨v, by simp [load_data, hp, hc, hr], Or.inr ⟨hc, rfl⟩⟩
      | notFound => exact Or.inr (by simp [load_data, hp, hc, hr])
      | failed m => exact Or.inr (by simp [load_data, hp, hc, hr])
    · exact Or.inr (by simp [load_data, hp, hc])
